import Mathlib

/-!
Shallow embedding of the multitab token refresh coordinator
(`src/token-service.ts`, class `TokenService`, together with the
legacy leader-based variant and the non-browser fallback storage).

Time is passed explicitly: `nowMs` is the value of
`new Date().getTime()` (milliseconds since epoch) at the moment the
operation runs; expiry timestamps are epoch seconds, as in the source.
Storage is modelled as the value stored under the single well-known
status key: `none` when the key is absent, `some v` otherwise, where
`v` records whether the stored string is accepted by `JSON.parse`
(yielding an object with optional fields) or rejected by it.
`JSON.parse` throwing on a malformed string is a fixed fact of the
host language; the source wraps it in no try/catch.
The cross-tab lock (`navigator.locks.request` / the `async-mutex`
fallback) serializes the body `getAccessTokenNonSynchronized`; the
embedding models one holder's critical section, which runs
sequentially.  The recursion in `getAccessTokenNonSynchronized` is
not structurally terminating in the source (a refresh may repeatedly
succeed with still-invalid tokens), so it takes explicit fuel and
returns `outOfFuel` when the recursion does not bottom out.
-/

namespace MultitabTokenRefresh

/-- The `Tokens` interface from `src/tokens.ts`: token strings plus
epoch-second expiry timestamps. -/
structure Tokens where
  accessToken : String
  accessTokenExp : Int
  refreshToken : String
  refreshTokenExp : Int
deriving DecidableEq, Repr

/-- The `Status` interface from `src/token-service.ts`: `Tokens` plus
the derived fields `loggedIn` and `accessTokenValid`. -/
structure Status where
  accessToken : String
  accessTokenExp : Int
  refreshToken : String
  refreshTokenExp : Int
  loggedIn : Bool
  accessTokenValid : Bool
deriving DecidableEq, Repr

/-- The result of `JSON.parse` on a stored status string: a JSON
object in which each of the six status fields may be absent. -/
structure ParsedStatus where
  accessToken : Option String
  accessTokenExp : Option Int
  refreshToken : Option String
  refreshTokenExp : Option Int
  loggedIn : Option Bool
  accessTokenValid : Option Bool
deriving DecidableEq, Repr

/-- `BASE_STATUS` constant: the empty logged-out record. -/
def BASE_STATUS : Status :=
  { accessToken := ""
    accessTokenExp := 0
    refreshToken := ""
    refreshTokenExp := 0
    loggedIn := false
    accessTokenValid := false }

/-- `MIN_TOKEN_TTL` constant (5 seconds). -/
def MIN_TOKEN_TTL : Int := 5

/-- `ttl(timestamp)`: `Math.max(0, Math.round(timestamp - now/1000))`
where `now` is in milliseconds.  `Math.round x = ⌊x + 1/2⌋`, and for
`x = n / 1000` this is `⌊(n + 500) / 1000⌋`, written with the
floor-division `Int.fdiv`. -/
def ttl (timestamp : Int) (nowMs : Int) : Int :=
  max 0 ((1000 * timestamp - nowMs + 500).fdiv 1000)

/-- `accessTokenValid(status)`: the access token string is non-empty
(and non-null) and its remaining TTL is at least `MIN_TOKEN_TTL`. -/
def accessTokenValid (status : Status) (nowMs : Int) : Bool :=
  status.accessToken != "" &&
    decide (MIN_TOKEN_TTL ≤ ttl status.accessTokenExp nowMs)

/-- `refreshTokenValid(status)`: the refresh token string is non-empty
(and non-null) and its remaining TTL is at least `MIN_TOKEN_TTL`. -/
def refreshTokenValid (status : Status) (nowMs : Int) : Bool :=
  status.refreshToken != "" &&
    decide (MIN_TOKEN_TTL ≤ ttl status.refreshTokenExp nowMs)

/-- The spread `{ ...BASE_STATUS, ...tokensOrStatus }`: fields present
in the parsed object override the base defaults. -/
def withBaseDefaults (p : ParsedStatus) : Status :=
  { accessToken := p.accessToken.getD BASE_STATUS.accessToken
    accessTokenExp := p.accessTokenExp.getD BASE_STATUS.accessTokenExp
    refreshToken := p.refreshToken.getD BASE_STATUS.refreshToken
    refreshTokenExp := p.refreshTokenExp.getD BASE_STATUS.refreshTokenExp
    loggedIn := p.loggedIn.getD BASE_STATUS.loggedIn
    accessTokenValid := p.accessTokenValid.getD BASE_STATUS.accessTokenValid }

/-- `createNewStatus(tokensOrStatus)`: merge onto `BASE_STATUS`, then
overwrite `loggedIn` and `accessTokenValid` with freshly computed
values. -/
def createNewStatus (tokensOrStatus : ParsedStatus) (nowMs : Int) : Status :=
  let status := withBaseDefaults tokensOrStatus
  { status with
      loggedIn := refreshTokenValid status nowMs
      accessTokenValid := accessTokenValid status nowMs }

/-- `JSON.stringify` of a full `Status`: a string that parses back to
an object in which all six fields are present. -/
def stringifyStatus (s : Status) : ParsedStatus :=
  { accessToken := some s.accessToken
    accessTokenExp := some s.accessTokenExp
    refreshToken := some s.refreshToken
    refreshTokenExp := some s.refreshTokenExp
    loggedIn := some s.loggedIn
    accessTokenValid := some s.accessTokenValid }

/-- A `Tokens` object passed where `Tokens | Status` is expected: the
four token fields are present, the derived fields absent. -/
def Tokens.toParsedStatus (t : Tokens) : ParsedStatus :=
  { accessToken := some t.accessToken
    accessTokenExp := some t.accessTokenExp
    refreshToken := some t.refreshToken
    refreshTokenExp := some t.refreshTokenExp
    loggedIn := none
    accessTokenValid := none }

/-- A JSON object with no fields, the result of parsing `"{}"`. -/
def emptyParsedStatus : ParsedStatus :=
  { accessToken := none
    accessTokenExp := none
    refreshToken := none
    refreshTokenExp := none
    loggedIn := none
    accessTokenValid := none }

/-- The raw string stored under the status key, at the granularity the
coordinator observes it: either `JSON.parse` accepts it and yields an
object, or `JSON.parse` rejects it. -/
inductive StoredValue where
  | parsed (p : ParsedStatus)
  | malformed
deriving DecidableEq, Repr

/-- Errors a coordinator operation can surface: the fixed
`LOGGED_OUT_ERROR` instance, the error thrown by `JSON.parse` on a
malformed record, or an arbitrary host-side error (network failure,
server 5xx, ...) distinguishable from the former two. -/
inductive JsError where
  | loggedOutError
  | jsonParseError
  | other (code : Nat)
deriving DecidableEq, Repr

/-- `getStatus()`: read the raw item; `null` becomes `"{}"`; the
result of `JSON.parse` is fed to `createNewStatus`.  `JSON.parse`
throws on a malformed string and the source has no try/catch, so that
error propagates to the caller. -/
def getStatus (store : Option StoredValue) (nowMs : Int) : Except JsError Status :=
  match store with
  | none => .ok (createNewStatus emptyParsedStatus nowMs)
  | some (.parsed p) => .ok (createNewStatus p nowMs)
  | some .malformed => .error .jsonParseError

/-- `deleteStatus()`: `storage.removeItem(storageKey)` on a conforming
backend removes the record. -/
def deleteStatus (_store : Option StoredValue) : Option StoredValue :=
  none

/-- `saveStatus(status)`: `storage.setItem(storageKey, JSON.stringify(status))`. -/
def saveStatus (_store : Option StoredValue) (status : Status) : Option StoredValue :=
  some (.parsed (stringifyStatus status))

/-- Outcome of one invocation of the host-supplied refresh callback:
it resolves with new tokens, or it rejects with an error, having
possibly first invoked the `setLoggedOut` handle it was given. -/
inductive CallbackResult where
  | resolves (tokens : Tokens)
  | rejects (invokedSetLoggedOut : Bool) (error : JsError)
deriving DecidableEq, Repr

/-- The host-supplied refresh callback, as a function of the
invocation count so far (allowing different behaviour per call) and
the refresh token it is handed. -/
abbrev RefreshCallback := Nat → String → CallbackResult

/-- State threaded through a run of the coordinator: the stored value
under the status key, and how often the refresh callback has been
invoked. -/
structure RunState where
  store : Option StoredValue
  invocations : Nat
deriving DecidableEq, Repr

/-- `TokenService.refresh()`: re-read the status; if not `loggedIn`
throw `LOGGED_OUT_ERROR`; otherwise invoke the refresh callback with
the current refresh token and the bound `setLoggedOut` handle.  On
resolution, save and publish `createNewStatus(tokens)`.  On rejection
the `catch` block logs and throws `LOGGED_OUT_ERROR`, whatever the
original error was; the stored record is touched only if the callback
itself invoked the handle. -/
def refresh (refreshCallback : RefreshCallback) (s : RunState) (nowMs : Int) :
    RunState × Except JsError Unit :=
  match getStatus s.store nowMs with
  | .error e => (s, .error e)
  | .ok currentStatus =>
    if !currentStatus.loggedIn then (s, .error .loggedOutError)
    else
      match refreshCallback s.invocations currentStatus.refreshToken with
      | .resolves tokens =>
        let newStatus := createNewStatus tokens.toParsedStatus nowMs
        ({ store := saveStatus s.store newStatus,
           invocations := s.invocations + 1 }, .ok ())
      | .rejects invokedSetLoggedOut _error =>
        (if invokedSetLoggedOut then
          { store := deleteStatus s.store, invocations := s.invocations + 1 }
         else
          { s with invocations := s.invocations + 1 }, .error .loggedOutError)

/-- Result of a `getAccessToken` run: the resolved access token, a
rejection, or fuel exhaustion (the source recursion spinning). -/
inductive TokenResult where
  | ok (accessToken : String)
  | error (e : JsError)
  | outOfFuel
deriving DecidableEq, Repr

/-- `TokenService.getAccessTokenNonSynchronized()`: read the status;
if `accessTokenValid`, return `accessToken`; otherwise `refresh` and
recurse. -/
def getAccessTokenNonSynchronized (refreshCallback : RefreshCallback) (nowMs : Int) :
    Nat → RunState → RunState × TokenResult
  | 0, s => (s, .outOfFuel)
  | fuel + 1, s =>
    match getStatus s.store nowMs with
    | .error e => (s, .error e)
    | .ok currentStatus =>
      if currentStatus.accessTokenValid then
        (s, .ok currentStatus.accessToken)
      else
        match refresh refreshCallback s nowMs with
        | (s', .error e) => (s', .error e)
        | (s', .ok _) => getAccessTokenNonSynchronized refreshCallback nowMs fuel s'

/-- `TokenService.getAccessToken()`: run the non-synchronized body
under the cross-tab lock (or the in-process mutex fallback); the lock
makes the body's critical section exclusive, so one holder's run is
the sequential execution modelled here. -/
def getAccessToken (refreshCallback : RefreshCallback) (nowMs : Int)
    (fuel : Nat) (s : RunState) : RunState × TokenResult :=
  getAccessTokenNonSynchronized refreshCallback nowMs fuel s

/-- `TokenService.setStatus(tokens)`: destructure the four token
fields, build `createNewStatus`, save and publish. -/
def setStatus (s : RunState) (tokens : Tokens) (nowMs : Int) : RunState :=
  { s with store := saveStatus s.store (createNewStatus tokens.toParsedStatus nowMs) }

/-- `TokenService.setLoggedOut()`: delete the stored record and notify
subscribers (notification does not change the persisted state). -/
def setLoggedOut (s : RunState) : RunState :=
  { s with store := deleteStatus s.store }

/-- The `status` type of the legacy leader-based variant: five fields,
no `accessTokenValid`. -/
structure LegacyStatus where
  accessToken : String
  accessTokenExp : Int
  refreshToken : String
  refreshTokenExp : Int
  loggedIn : Bool
deriving DecidableEq, Repr

/-- `updateLocalStatus(newTokens)` of the legacy leader-based variant:
computes `loggedIn` and `accessValid` with the strict bound
`ttl(exp) > 5`, blanks `accessToken` when not `accessValid`, and
builds `{ ...BASE_STATUS, ...newTokens, loggedIn, accessToken }`
(this record is what gets serialized into storage when it differs
from the current one). -/
def updateLocalStatus (newTokens : Tokens) (nowMs : Int) : LegacyStatus :=
  let loggedIn := newTokens.refreshToken != "" &&
    decide (5 < ttl newTokens.refreshTokenExp nowMs)
  let accessValid := newTokens.accessToken != "" &&
    decide (5 < ttl newTokens.accessTokenExp nowMs)
  let accessToken := if accessValid then newTokens.accessToken else ""
  { accessToken := accessToken
    accessTokenExp := newTokens.accessTokenExp
    refreshToken := newTokens.refreshToken
    refreshTokenExp := newTokens.refreshTokenExp
    loggedIn := loggedIn }

namespace FallbackStorage

/-- `getItem(key)` of the non-browser in-memory fallback storage:
look the key up in the backing object. -/
def getItem (storage : List (String × String)) (key : String) : Option String :=
  (storage.find? (fun kv => kv.1 == key)).map (fun kv => kv.2)

/-- `setItem(key, value)` of the non-browser fallback storage: set the
property `key` of the backing object to `value`. -/
def setItem (storage : List (String × String)) (key value : String) :
    List (String × String) :=
  (key, value) :: storage.filter (fun kv => kv.1 != key)

/-- `removeItem(key)` of the non-browser fallback storage: the source
executes `delete storage.key`, which deletes the property literally
named `"key"` from the backing object, not the property named by the
`key` parameter. -/
def removeItem (storage : List (String × String)) (key : String) :
    List (String × String) :=
  storage.filter (fun kv => kv.1 != "key")

end FallbackStorage

/-! Theorems -/

/-- A status whose `accessTokenValid` recomputation succeeds has a
non-empty access token. -/
theorem accessToken_ne_empty_of_valid {st : Status} {nowMs : Int}
    (h : accessTokenValid st nowMs = true) : st.accessToken ≠ "" := by
  simp only [accessTokenValid, Bool.and_eq_true, bne_iff_ne, ne_eq] at h
  exact h.1

/-- Any status produced by `getStatus` carries recomputed derived
fields: its `accessTokenValid` field agrees with the recomputation at
the read time. -/
theorem getStatus_field_recomputed {store : Option StoredValue} {nowMs : Int}
    {st : Status} (h : getStatus store nowMs = .ok st) :
    st.accessTokenValid = accessTokenValid st nowMs := by
  match store with
  | none =>
    simp only [getStatus, Except.ok.injEq] at h
    subst h
    simp [createNewStatus, accessTokenValid]
  | some (.parsed p) =>
    simp only [getStatus, Except.ok.injEq] at h
    subst h
    simp [createNewStatus, accessTokenValid]
  | some .malformed =>
    simp [getStatus] at h

/-- C4 counterexample: an unparsable stored record makes `getStatus`
raise the `JSON.parse` error to its caller, contradicting the claim
that `getStatus` never raises. -/
theorem C4_counterexample :
    getStatus (some .malformed) 0 = .error .jsonParseError :=
  rfl

/-- C4 (amended): an absent record is treated as the empty logged-out
record with recomputed flags, but an unparsable record causes
`getStatus` to raise the parse error rather than self-heal. -/
theorem C4_absent_self_heals_malformed_raises (nowMs : Int) :
    getStatus none nowMs = .ok BASE_STATUS ∧
      getStatus (some .malformed) nowMs = .error .jsonParseError := by
  constructor
  · simp [getStatus, createNewStatus, withBaseDefaults, emptyParsedStatus,
      refreshTokenValid, accessTokenValid, BASE_STATUS]
  · rfl

/-- C5: for a status with a non-empty access token, `accessTokenValid`
holds exactly when the remaining TTL (floored at zero) is at least
`MIN_TOKEN_TTL`, with the bound inclusive: remaining TTL exactly
`MIN_TOKEN_TTL` is valid and `MIN_TOKEN_TTL - 1` is invalid; the
analogous inclusive bound holds for the logged-in test over
`refreshTokenExp`. -/
theorem C5_min_ttl_inclusive_bound (st : Status) (nowMs : Int) :
    (st.accessToken ≠ "" →
      ((accessTokenValid st nowMs = true) ↔
        MIN_TOKEN_TTL ≤ ttl st.accessTokenExp nowMs)) ∧
    (st.refreshToken ≠ "" →
      ((refreshTokenValid st nowMs = true) ↔
        MIN_TOKEN_TTL ≤ ttl st.refreshTokenExp nowMs)) ∧
    ttl 5 0 = MIN_TOKEN_TTL ∧
    accessTokenValid ⟨"A", 5, "R", 5, false, false⟩ 0 = true ∧
    refreshTokenValid ⟨"A", 5, "R", 5, false, false⟩ 0 = true ∧
    ttl 4 0 = MIN_TOKEN_TTL - 1 ∧
    accessTokenValid ⟨"A", 4, "R", 4, false, false⟩ 0 = false ∧
    refreshTokenValid ⟨"A", 4, "R", 4, false, false⟩ 0 = false := by
  refine ⟨?_, ?_, by decide, by decide, by decide, by decide, by decide, by decide⟩
  · intro h
    simp [accessTokenValid, Bool.and_eq_true, bne_iff_ne, h]
  · intro h
    simp [refreshTokenValid, Bool.and_eq_true, bne_iff_ne, h]

/-- C5 witness: the general bound applied at a concrete boundary
status whose access and refresh tokens are non-empty. -/
theorem C5_min_ttl_inclusive_bound_witness :
    (Status.accessToken ⟨"A", 5, "R", 5, false, false⟩ ≠ "" ∧
      ((accessTokenValid ⟨"A", 5, "R", 5, false, false⟩ 0 = true) ↔
        MIN_TOKEN_TTL ≤ ttl (Status.accessTokenExp ⟨"A", 5, "R", 5, false, false⟩) 0)) ∧
    (Status.refreshToken ⟨"A", 5, "R", 5, false, false⟩ ≠ "" ∧
      ((refreshTokenValid ⟨"A", 5, "R", 5, false, false⟩ 0 = true) ↔
        MIN_TOKEN_TTL ≤ ttl (Status.refreshTokenExp ⟨"A", 5, "R", 5, false, false⟩) 0)) :=
  ⟨⟨by decide, (C5_min_ttl_inclusive_bound ⟨"A", 5, "R", 5, false, false⟩ 0).1 (by decide)⟩,
   ⟨by decide, (C5_min_ttl_inclusive_bound ⟨"A", 5, "R", 5, false, false⟩ 0).2.1 (by decide)⟩⟩

/-- C7 counterexample: two token records with identical expiry
timestamps whose round trips disagree on `loggedIn` (the derived
fields also depend on the emptiness of the token strings, so they are
not purely functions of the expiry timestamps, the current time and
`MIN_TOKEN_TTL`). -/
theorem C7_counterexample :
    Tokens.accessTokenExp ⟨"A", 3600, "R", 86400⟩ =
      Tokens.accessTokenExp ⟨"A", 3600, "", 86400⟩ ∧
    Tokens.refreshTokenExp ⟨"A", 3600, "R", 86400⟩ =
      Tokens.refreshTokenExp ⟨"A", 3600, "", 86400⟩ ∧
    getStatus (setStatus ⟨none, 0⟩ ⟨"A", 3600, "R", 86400⟩ 0).store 0 =
      .ok ⟨"A", 3600, "R", 86400, true, true⟩ ∧
    getStatus (setStatus ⟨none, 0⟩ ⟨"A", 3600, "", 86400⟩ 0).store 0 =
      .ok ⟨"A", 3600, "", 86400, false, true⟩ ∧
    Status.loggedIn ⟨"A", 3600, "R", 86400, true, true⟩ ≠
      Status.loggedIn ⟨"A", 3600, "", 86400, false, true⟩ :=
  ⟨rfl, rfl, rfl, rfl, by decide⟩

/-- C7 (amended): `setStatus(T)` followed by `getStatus()` returns a
status whose token fields equal `T`'s, and whose `loggedIn` and
`accessTokenValid` are recomputed at read time from `T`'s token
strings' emptiness, `T`'s expiry timestamps and `MIN_TOKEN_TTL` —
independent of the write time and of the derived fields that were
serialized into storage. -/
theorem C7_roundtrip (s : RunState) (T : Tokens) (nowWriteMs nowReadMs : Int) :
    getStatus (setStatus s T nowWriteMs).store nowReadMs =
      .ok { accessToken := T.accessToken
            accessTokenExp := T.accessTokenExp
            refreshToken := T.refreshToken
            refreshTokenExp := T.refreshTokenExp
            loggedIn := T.refreshToken != "" &&
              decide (MIN_TOKEN_TTL ≤ ttl T.refreshTokenExp nowReadMs)
            accessTokenValid := T.accessToken != "" &&
              decide (MIN_TOKEN_TTL ≤ ttl T.accessTokenExp nowReadMs) } := by
  simp [setStatus, saveStatus, getStatus, createNewStatus, withBaseDefaults,
    stringifyStatus, Tokens.toParsedStatus, refreshTokenValid, accessTokenValid]

/-- C8: `setLoggedOut` is idempotent — a second consecutive call
leaves both the persisted record and the status observed via
`getStatus` identical to the state after a single call. -/
theorem C8_setLoggedOut_idempotent (s : RunState) (nowMs : Int) :
    setLoggedOut (setLoggedOut s) = setLoggedOut s ∧
      getStatus (setLoggedOut (setLoggedOut s)).store nowMs =
        getStatus (setLoggedOut s).store nowMs :=
  ⟨rfl, rfl⟩

/-- C9: the non-browser fallback storage's `removeItem` executes
`delete storage.key`, deleting the property literally named `"key"`;
evaluating the backend at the failing input shows that after storing a
record under `"authStatus"` and calling `removeItem("authStatus")`, a
raw read still returns the record instead of absent. -/
theorem C9_fallback_removeItem_leaves_record :
    FallbackStorage.getItem
        (FallbackStorage.removeItem
          (FallbackStorage.setItem [] "authStatus" "S") "authStatus")
        "authStatus" = some "S" ∧
      some "S" ≠ (none : Option String) := by
  constructor
  · rfl
  · simp

/-- C1 counterexample: with a logged-in status whose access token is
stale, a refresh callback that rejects with a transient error
(`other 7`) without invoking the logout handle makes `getAccessToken`
fail with the fixed `LOGGED_OUT_ERROR` instead of the original error,
although the persisted record is indeed left unchanged. -/
theorem C1_counterexample :
    (getAccessToken (fun _ _ => .rejects false (.other 7)) 0 1
        ⟨some (.parsed ⟨some "OLD", some 0, some "R1", some 86400, none, none⟩), 0⟩).2 =
      .error .loggedOutError ∧
    TokenResult.error .loggedOutError ≠ .error (.other 7) ∧
    (getAccessToken (fun _ _ => .rejects false (.other 7)) 0 1
        ⟨some (.parsed ⟨some "OLD", some 0, some "R1", some 86400, none, none⟩), 0⟩).1.store =
      some (.parsed ⟨some "OLD", some 0, some "R1", some 86400, none, none⟩) :=
  ⟨rfl, by decide, rfl⟩

/-- C1 (amended): when the refresh callback fails without invoking the
logout handle, the persisted status record is left unchanged, but the
call fails with the fixed `LOGGED_OUT_ERROR` — the callback's original
error is replaced, not propagated unchanged. -/
theorem C1_transient_failure_preserves_status (cb : RefreshCallback)
    (s : RunState) (nowMs : Int) (st : Status) (e : JsError) (fuel : Nat)
    (hget : getStatus s.store nowMs = .ok st)
    (hvalid : st.accessTokenValid = false)
    (hlog : st.loggedIn = true)
    (hcb : cb s.invocations st.refreshToken = .rejects false e) :
    getAccessToken cb nowMs (fuel + 1) s =
      ({ s with invocations := s.invocations + 1 }, .error .loggedOutError) := by
  simp [getAccessToken, getAccessTokenNonSynchronized, refresh, hget, hvalid,
    hlog, hcb]

/-- C1 witness: the amended statement applied to a concrete logged-in
state with a stale access token and a transiently failing callback. -/
theorem C1_transient_failure_preserves_status_witness :
    getStatus (RunState.store
        ⟨some (.parsed ⟨some "OLD", some 0, some "R1", some 86400, none, none⟩), 0⟩) 0 =
      .ok ⟨"OLD", 0, "R1", 86400, true, false⟩ ∧
    getAccessToken (fun _ _ => .rejects false (.other 7)) 0 1
        ⟨some (.parsed ⟨some "OLD", some 0, some "R1", some 86400, none, none⟩), 0⟩ =
      (⟨some (.parsed ⟨some "OLD", some 0, some "R1", some 86400, none, none⟩), 1⟩,
        .error .loggedOutError) :=
  ⟨rfl,
    C1_transient_failure_preserves_status (fun _ _ => .rejects false (.other 7))
      ⟨some (.parsed ⟨some "OLD", some 0, some "R1", some 86400, none, none⟩), 0⟩
      0 ⟨"OLD", 0, "R1", 86400, true, false⟩ (.other 7) 0 rfl rfl rfl rfl⟩

/-- C2 counterexample: starting from the stored empty status and a
rejecting callback, `getAccessToken` performs zero refresh-callback
invocations, not exactly one. -/
theorem C2_counterexample :
    (getAccessToken (fun _ _ => .rejects false (.other 7)) 0 5
        ⟨some (.parsed ⟨some "", some 0, some "", some 0, none, none⟩), 0⟩).1.invocations ≠ 1 ∧
    (getAccessToken (fun _ _ => .rejects false (.other 7)) 0 5
        ⟨some (.parsed ⟨some "", some 0, some "", some 0, none, none⟩), 0⟩).2 =
      .error .loggedOutError :=
  ⟨by decide, rfl⟩

/-- C2 (amended): starting from the stored empty status, the
`loggedIn` check in `refresh` fails before the refresh callback is
ever invoked, so a `getAccessToken` call fails with `LOGGED_OUT_ERROR`
with zero callback invocations, whatever the callback would do. -/
theorem C2_empty_status_logged_out (cb : RefreshCallback) (nowMs : Int)
    (fuel : Nat) :
    getAccessToken cb nowMs (fuel + 1)
        ⟨some (.parsed ⟨some "", some 0, some "", some 0, none, none⟩), 0⟩ =
      (⟨some (.parsed ⟨some "", some 0, some "", some 0, none, none⟩), 0⟩,
        .error .loggedOutError) := by
  simp [getAccessToken, getAccessTokenNonSynchronized, refresh, getStatus,
    createNewStatus, withBaseDefaults, accessTokenValid, refreshTokenValid]

/-- C3 counterexample: `setStatus` with a stale-but-present access
token string stores a record whose `accessToken` field is `"STALE"`,
not the empty string, even though its remaining TTL is below
`MIN_TOKEN_TTL`. -/
theorem C3_counterexample :
    ttl (Tokens.accessTokenExp ⟨"STALE", 0, "R", 86400⟩) 0 < MIN_TOKEN_TTL ∧
    (setStatus ⟨none, 0⟩ ⟨"STALE", 0, "R", 86400⟩ 0).store =
      some (.parsed
        ⟨some "STALE", some 0, some "R", some 86400, some true, some false⟩) ∧
    ("STALE" : String) ≠ "" :=
  ⟨by decide, rfl, by decide⟩

/-- C3 (amended): a status written through `createNewStatus` (by
`setStatus` or a successful refresh) records `accessTokenValid =
false` whenever the remaining TTL is below `MIN_TOKEN_TTL`, but keeps
the access token string as given; only the legacy variant's
`updateLocalStatus` blanks a non-valid access token before storing. -/
theorem C3_stale_flag_false_and_legacy_blanking (tokens : Tokens) (nowMs : Int) :
    (ttl tokens.accessTokenExp nowMs < MIN_TOKEN_TTL →
      (createNewStatus tokens.toParsedStatus nowMs).accessTokenValid = false) ∧
    (ttl tokens.accessTokenExp nowMs ≤ 5 →
      (updateLocalStatus tokens nowMs).accessToken = "") := by
  constructor
  · intro h
    have h' : ¬ (MIN_TOKEN_TTL ≤ ttl tokens.accessTokenExp nowMs) := by omega
    simp [createNewStatus, withBaseDefaults, Tokens.toParsedStatus,
      accessTokenValid, h']
  · intro h
    have h' : ¬ (5 < ttl tokens.accessTokenExp nowMs) := by omega
    simp [updateLocalStatus, h']

/-- C3 witness: the amended statement applied to a concrete stale
token record. -/
theorem C3_stale_flag_false_and_legacy_blanking_witness :
    (ttl (Tokens.accessTokenExp ⟨"STALE", 0, "R", 86400⟩) 0 < MIN_TOKEN_TTL ∧
      (createNewStatus (Tokens.toParsedStatus ⟨"STALE", 0, "R", 86400⟩) 0).accessTokenValid
        = false) ∧
    (ttl (Tokens.accessTokenExp ⟨"STALE", 0, "R", 86400⟩) 0 ≤ 5 ∧
      (updateLocalStatus ⟨"STALE", 0, "R", 86400⟩ 0).accessToken = "") :=
  ⟨⟨by decide,
    (C3_stale_flag_false_and_legacy_blanking ⟨"STALE", 0, "R", 86400⟩ 0).1 (by decide)⟩,
   ⟨by decide,
    (C3_stale_flag_false_and_legacy_blanking ⟨"STALE", 0, "R", 86400⟩ 0).2 (by decide)⟩⟩

/-- C6: when the status read under the lock has `accessTokenValid`
true, `getAccessToken` returns its `accessToken` with the state — in
particular the callback invocation count — unchanged; and in scenario
B, after `setStatus` of tokens expiring 3600 s and 86400 s ahead, an
immediate `getAccessToken` returns `"A1"` with zero callback
invocations. -/
theorem C6_fast_path (cb : RefreshCallback) (s : RunState) (nowMs : Int)
    (fuel : Nat) (st : Status)
    (hget : getStatus s.store nowMs = .ok st)
    (hvalid : st.accessTokenValid = true) :
    getAccessToken cb nowMs (fuel + 1) s = (s, .ok st.accessToken) ∧
    (setStatus ⟨none, 0⟩ ⟨"A1", 3600, "R1", 86400⟩ 0).invocations = 0 ∧
    getAccessToken cb 0 (fuel + 1) (setStatus ⟨none, 0⟩ ⟨"A1", 3600, "R1", 86400⟩ 0) =
      (setStatus ⟨none, 0⟩ ⟨"A1", 3600, "R1", 86400⟩ 0, .ok "A1") := by
  have fast : ∀ (nw : Int) (s' : RunState) (st' : Status),
      getStatus s'.store nw = .ok st' → st'.accessTokenValid = true →
      getAccessToken cb nw (fuel + 1) s' = (s', .ok st'.accessToken) := by
    intro nw s' st' hg hv
    simp [getAccessToken, getAccessTokenNonSynchronized, hg, hv]
  refine ⟨fast nowMs s st hget hvalid, rfl, ?_⟩
  exact fast 0 (setStatus ⟨none, 0⟩ ⟨"A1", 3600, "R1", 86400⟩ 0)
    ⟨"A1", 3600, "R1", 86400, true, true⟩ rfl rfl

/-- C6 witness: the fast path applied to the concrete scenario-B
state, with a callback that would reject if it were ever invoked. -/
theorem C6_fast_path_witness :
    getStatus (RunState.store (setStatus ⟨none, 0⟩ ⟨"A1", 3600, "R1", 86400⟩ 0)) 0 =
      .ok ⟨"A1", 3600, "R1", 86400, true, true⟩ ∧
    getAccessToken (fun _ _ => .rejects false (.other 0)) 0 1
        (setStatus ⟨none, 0⟩ ⟨"A1", 3600, "R1", 86400⟩ 0) =
      (setStatus ⟨none, 0⟩ ⟨"A1", 3600, "R1", 86400⟩ 0, .ok "A1") :=
  ⟨rfl,
    (C6_fast_path (fun _ _ => .rejects false (.other 0))
      (setStatus ⟨none, 0⟩ ⟨"A1", 3600, "R1", 86400⟩ 0) 0 0
      ⟨"A1", 3600, "R1", 86400, true, true⟩ rfl rfl).1⟩

/-- A successful run of the non-synchronized body ends on a state
whose status read succeeds with `accessTokenValid` true and whose
access token is the returned string. -/
theorem getAccessTokenNonSynchronized_ok (cb : RefreshCallback) (nowMs : Int) :
    ∀ (fuel : Nat) (s s' : RunState) (tok : String),
      getAccessTokenNonSynchronized cb nowMs fuel s = (s', .ok tok) →
      ∃ st, getStatus s'.store nowMs = .ok st ∧
        st.accessTokenValid = true ∧ st.accessToken = tok := by
  intro fuel
  induction fuel with
  | zero =>
    intro s s' tok h
    simp [getAccessTokenNonSynchronized] at h
  | succ n ih =>
    intro s s' tok h
    simp only [getAccessTokenNonSynchronized] at h
    split at h
    next e heq =>
      simp at h
    next currentStatus heq =>
      split at h
      next hvalid =>
        simp only [Prod.mk.injEq, TokenResult.ok.injEq] at h
        obtain ⟨h1, h2⟩ := h
        subst h1
        exact ⟨currentStatus, heq, hvalid, h2⟩
      next hvalid =>
        split at h
        next s₂ e heq₂ =>
          simp at h
        next s₂ u heq₂ =>
          exact ih s₂ s' tok h

/-- C10: whenever `getAccessToken` resolves successfully, the returned
string is the access token of a status that satisfied
`accessTokenValid` when read from storage, and is therefore
non-empty — the empty string is never returned to a caller. -/
theorem C10_success_is_valid_nonempty (cb : RefreshCallback) (nowMs : Int)
    (fuel : Nat) (s s' : RunState) (tok : String)
    (h : getAccessToken cb nowMs fuel s = (s', .ok tok)) :
    tok ≠ "" ∧ ∃ st, getStatus s'.store nowMs = .ok st ∧
      st.accessTokenValid = true ∧ st.accessToken = tok := by
  obtain ⟨st, hg, hv, ht⟩ :=
    getAccessTokenNonSynchronized_ok cb nowMs fuel s s' tok h
  have hrec := (getStatus_field_recomputed hg).symm.trans hv
  have hne := accessToken_ne_empty_of_valid hrec
  exact ⟨ht ▸ hne, st, hg, hv, ht⟩

/-- C10 witness: the safety property applied to a concrete successful
fast-path run. -/
theorem C10_success_is_valid_nonempty_witness :
    ("A1" : String) ≠ "" ∧ ∃ st,
      getStatus (RunState.store (setStatus ⟨none, 0⟩ ⟨"A1", 3600, "R1", 86400⟩ 0)) 0 =
        .ok st ∧ st.accessTokenValid = true ∧ st.accessToken = "A1" :=
  C10_success_is_valid_nonempty (fun _ _ => .rejects false (.other 0)) 0 1
    (setStatus ⟨none, 0⟩ ⟨"A1", 3600, "R1", 86400⟩ 0)
    (setStatus ⟨none, 0⟩ ⟨"A1", 3600, "R1", 86400⟩ 0) "A1" rfl

end MultitabTokenRefresh
